import Mathlib

/-!
Shallow embedding of `tools/prepare_release.py`, the Flexifi release
preparation tool.

The filesystem and process environment are modelled explicitly:
`World.pathExists` models `Path(p).exists()`, `World.fileSize` models
`Path(p).stat().st_size`, `World.manifest` models the parsed JSON content of
`library.json` (`none` when the file is absent, unreadable or unparsable), and
`World.external` gives the result of executing a shell command via
`subprocess.run` (the opaque filesystem effects of external commands are not
modelled).  Printing is modelled by returning the printed payloads that the
specification talks about: the list of missing files reported by
`validate_structure`, the failure reason printed by `run_command`, the byte
total reported by `validate_generated_assets`, and the warning lines printed
by `create_release_notes`.
-/

namespace PrepareRelease

/-- JSON documents, as produced by Python's `json.load`: an object is an
insertion-ordered association list of string keys and values. -/
inductive Json where
  | null
  | bool (b : Bool)
  | num (n : Int)
  | str (s : String)
  | arr (elems : List Json)
  | obj (members : List (String × Json))

/-- Python dict item assignment `d[k] = v`: if the key is present, replace its
value in place (keeping the position); otherwise append the binding at the
end. -/
def setKey : List (String × Json) → String → Json → List (String × Json)
  | [], k, v => [(k, v)]
  | (k₀, v₀) :: rest, k, v =>
    if k₀ = k then (k, v) :: rest else (k₀, v₀) :: setKey rest k v

/-- Python's `str.strip()`: drop whitespace from both ends. -/
def pyStrip (s : String) : String :=
  ⟨((s.data.dropWhile Char.isWhitespace).reverse.dropWhile Char.isWhitespace).reverse⟩

/-- Outcome of one `subprocess.run(cmd, shell=True, check=True,
capture_output=True, text=True)` invocation: the exit status of the command
together with its captured output streams. -/
structure CmdResult where
  exitCode : Nat
  stdout : String
  stderr : String

/-- The text of `str(e)` for a `subprocess.CalledProcessError` (quotes around
the command elided). -/
def calledProcessErrorText (cmd : String) (code : Nat) : String :=
  "Command " ++ cmd ++ " returned non-zero exit status " ++ toString code ++ "."

/-- `run_command` from the source: run a shell command; with `check=True` a
non-zero exit raises `CalledProcessError`, which is caught, the failure reason
(`e.stderr.strip() if e.stderr else str(e)`) is printed, and `False` is
returned.  The returned pair is the success flag together with the printed
failure reason (`none` on success). -/
def run_command (cmd : String) (res : CmdResult) : Bool × Option String :=
  if res.exitCode = 0 then
    (true, none)
  else
    (false, some (if res.stderr = "" then calledProcessErrorText cmd res.exitCode
                  else pyStrip res.stderr))

/-- The fixed `required_files` list of `validate_structure`. -/
def required_files : List String :=
  ["library.json",
   "src/Flexifi.h",
   "src/Flexifi.cpp",
   "src/TemplateManager.h",
   "src/TemplateManager.cpp",
   "src/StorageManager.h",
   "src/StorageManager.cpp",
   "src/PortalWebServer.h",
   "src/PortalWebServer.cpp",
   "src/FlexifiParameter.h",
   "src/FlexifiParameter.cpp",
   "README.md",
   "examples/basic_usage/basic_usage.ino",
   "examples/advanced_callbacks/advanced_callbacks.ino",
   "examples/state_machine/state_machine.ino"]

/-- `validate_structure`: collect the required files that do not exist; if any
are missing, print them all and return `False`, otherwise return `True`.  The
second component is the list of missing paths printed in the failure branch
(empty in the success branch, where nothing is reported missing). -/
def validate_structure (pathExists : String → Bool) : Bool × List String :=
  let missing_files := required_files.filter (fun file => !(pathExists file))
  if missing_files.isEmpty then (true, [])
  else (false, missing_files)

/-- The shell command run by `embed_assets`. -/
def embedAssetsCommand : String := "python3 tools/embed_assets.py"

/-- `embed_assets`: trigger the external asset-embedding command through
`run_command`. -/
def embed_assets (res : CmdResult) : Bool × Option String :=
  run_command embedAssetsCommand res

/-- Path of the generated declarations file checked by
`validate_generated_assets`. -/
def headerPath : String := "src/generated/web_assets.h"

/-- Path of the generated implementation file checked by
`validate_generated_assets`. -/
def implPath : String := "src/generated/web_assets.cpp"

/-- `validate_generated_assets`: both generated files must exist, the header
must be at least 1000 bytes and the implementation at least 500 bytes.  The
second component is the combined byte total reported in the success branch
(`none` when validation fails). -/
def validate_generated_assets (pathExists : String → Bool)
    (fileSize : String → Nat) : Bool × Option Nat :=
  if !(pathExists headerPath) then (false, none)
  else if !(pathExists implPath) then (false, none)
  else
    let header_size := fileSize headerPath
    let impl_size := fileSize implPath
    if header_size < 1000 then (false, none)
    else if impl_size < 500 then (false, none)
    else (true, some (header_size + impl_size))

/-- `update_version`: `if not version: return True` (both `None` and the empty
string are falsy in Python, making the step an immediate no-op); otherwise
read and parse `library.json`, set its `version` key and write it back.  Any
exception — unreadable or unparsable file (`manifest = none`), or the
`TypeError` raised by item assignment on a non-object document — is caught and
turns into `False` with the file left unmodified.  The argument `manifest` is
the parsed content of `library.json`; the second component of the result is
the content after the call. -/
def update_version (version : Option String) (manifest : Option Json) :
    Bool × Option Json :=
  match version with
  | none => (true, manifest)
  | some v =>
    if v = "" then (true, manifest)
    else
      match manifest with
      | some (Json.obj members) =>
        (true, some (Json.obj (setKey members "version" (Json.str v))))
      | _ => (false, manifest)

/-- The warning lines printed by `create_release_notes` when the notes file is
absent. -/
def releaseNotesWarning : List String :=
  ["No RELEASE_NOTES.md found",
   "Please create release notes manually before running prepare_release.py",
   "This ensures you can craft proper release notes for your specific version"]

/-- `create_release_notes`: succeed when `RELEASE_NOTES.md` exists; otherwise
print a warning telling the operator to write it manually and return `False`.
It never creates or writes the file.  The second component is the warning
printed in the failure branch. -/
def create_release_notes (pathExists : String → Bool) : Bool × List String :=
  if pathExists "RELEASE_NOTES.md" then (true, [])
  else (false, releaseNotesWarning)

/-- The `temp_files` patterns of `cleanup_generated_files`. -/
def temp_files : List String := ["__pycache__", "*.pyc", ".DS_Store"]

/-- `cleanup_generated_files`: run one `find -delete` command per pattern,
ignore every command's result, and return `True` unconditionally. -/
def cleanup_generated_files (external : String → CmdResult) : Bool :=
  let _ := temp_files.map (fun p =>
    run_command ("find . -name " ++ p ++ " -delete") (external ("find . -name " ++ p ++ " -delete")))
  true

/-- Argument parsing in `main`:
`if len(sys.argv) > 1: if sys.argv[1] == "--version" and len(sys.argv) > 2:
version = sys.argv[2]`.  `argv` includes the program name at index 0; the
result is the `version` variable (`none` when it was never assigned). -/
def parse_version (argv : List String) : Option String :=
  match argv with
  | _ :: a1 :: rest =>
    if a1 = "--version" then
      match rest with
      | a2 :: _ => some a2
      | [] => none
    else none
  | _ => none

/-- The observable state the steps interact with: the filesystem (existence
and size views), the parsed content of `library.json`, and the oracle giving
each shell command's outcome. -/
structure World where
  pathExists : String → Bool
  fileSize : String → Nat
  manifest : Option Json
  external : String → CmdResult

/-- The `validate_structure` step as run by `main`: a pure read of the
filesystem. -/
def validate_structure_action (w : World) : Bool × World :=
  ((validate_structure w.pathExists).fst, w)

/-- The `embed_assets` step as run by `main`: consults the command oracle (its
opaque filesystem effects are not modelled). -/
def embed_assets_action (w : World) : Bool × World :=
  ((embed_assets (w.external embedAssetsCommand)).fst, w)

/-- The `validate_generated_assets` step as run by `main`: a pure read of the
filesystem. -/
def validate_generated_assets_action (w : World) : Bool × World :=
  ((validate_generated_assets w.pathExists w.fileSize).fst, w)

/-- The `lambda: update_version(version)` step as run by `main`: the only step
that writes to `library.json`. -/
def update_version_action (version : Option String) (w : World) : Bool × World :=
  let r := update_version version w.manifest
  (r.fst, { w with manifest := r.snd })

/-- The `create_release_notes` step as run by `main`: a pure read of the
filesystem. -/
def create_release_notes_action (w : World) : Bool × World :=
  ((create_release_notes w.pathExists).fst, w)

/-- The `cleanup_generated_files` step as run by `main` (the `find -delete`
commands' filesystem effects are opaque and not modelled). -/
def cleanup_action (w : World) : Bool × World :=
  (cleanup_generated_files w.external, w)

/-- The fixed `steps` list assembled by `main`, in source order. -/
def steps (version : Option String) : List (String × (World → Bool × World)) :=
  [("Validating package structure", validate_structure_action),
   ("Embedding web assets", embed_assets_action),
   ("Validating generated assets", validate_generated_assets_action),
   ("Updating version", update_version_action version),
   ("Creating release notes", create_release_notes_action),
   ("Cleaning up", cleanup_action)]

/-- The orchestrator loop of `main`: invoke every step's action once, in list
order, threading the world through.  Returns the trace of `(name, result)`
outcomes — one per invocation, in invocation order — together with the
`failed_steps` list exactly as the source builds it (the name appended when a
step returns `False`) and the final world. -/
def runSteps : List (String × (World → Bool × World)) → World →
    List (String × Bool) × List String × World
  | [], w => ([], [], w)
  | (n, f) :: rest, w =>
    let p := f w
    let r := runSteps rest p.2
    ((n, p.1) :: r.1, (if p.1 then r.2.1 else n :: r.2.1), r.2.2)

/-- Result of one run of `main`: the outcome trace, the `failed_steps` list
(whose entries are the names printed under "Failed steps:"), the process exit
status (`sys.exit(1)` when `failed_steps` is non-empty, falling off the end —
status 0 — otherwise), and the final world. -/
structure RunResult where
  outcomes : List (String × Bool)
  failed_steps : List String
  exitCode : Nat
  world : World

/-- `main`: parse the optional `--version` argument, run the six steps in
order, and derive the exit status from the `failed_steps` list. -/
def main (argv : List String) (w : World) : RunResult :=
  let version := parse_version argv
  let r := runSteps (steps version) w
  { outcomes := r.1,
    failed_steps := r.2.1,
    exitCode := if r.2.1.isEmpty then 0 else 1,
    world := r.2.2 }

/-- The six step names, in pipeline order. -/
def stepNames : List String :=
  ["Validating package structure",
   "Embedding web assets",
   "Validating generated assets",
   "Updating version",
   "Creating release notes",
   "Cleaning up"]

/-- A concrete world used to instantiate universally quantified theorems:
every path exists, every file is empty, `library.json` is unparsed, every
command succeeds silently. -/
def trivialWorld : World :=
  ⟨fun _ => true, fun _ => 0, none, fun _ => ⟨0, "", ""⟩⟩

/-- The outcome trace names every step of the list once, in list order. -/
theorem runSteps_names (l : List (String × (World → Bool × World))) (w : World) :
    ((runSteps l w).1).map Prod.fst = l.map Prod.fst := by
  induction l generalizing w with
  | nil => rfl
  | cons hd tl ih =>
    obtain ⟨n, f⟩ := hd
    simp [runSteps, ih]

/-- The `failed_steps` list built by the loop is exactly the names of the
outcomes whose result is `false`, in trace order. -/
theorem runSteps_failed (l : List (String × (World → Bool × World))) (w : World) :
    (runSteps l w).2.1 = (((runSteps l w).1).filter (fun p => !p.2)).map Prod.fst := by
  induction l generalizing w with
  | nil => rfl
  | cons hd tl ih =>
    obtain ⟨n, f⟩ := hd
    by_cases h : (f w).1 <;> simp [runSteps, h, ih]

/-- The final world of a run: only the version-update step writes, so the
run's effect on the modelled state is exactly `update_version`'s effect on the
manifest. -/
theorem main_world_eq (argv : List String) (w : World) :
    (main argv w).world =
      { w with manifest := (update_version (parse_version argv) w.manifest).snd } := by
  rfl

/-- C1: for every argument vector and every world — hence for every
combination of step successes and failures — `main` invokes each of the six
steps of its fixed pipeline exactly once, in list order, recording exactly one
attempted outcome per step: the outcome trace names the six steps in pipeline
order and has length six, no matter how many steps fail. -/
theorem main_runs_every_step_once (argv : List String) (w : World) :
    ((main argv w).outcomes).map Prod.fst = stepNames ∧
    (main argv w).outcomes.length = (steps (parse_version argv)).length ∧
    (main argv w).outcomes.length = 6 := by
  have h : ((main argv w).outcomes).map Prod.fst = stepNames := by
    show ((runSteps (steps (parse_version argv)) w).1).map Prod.fst = stepNames
    rw [runSteps_names]
    rfl
  refine ⟨h, ?_, ?_⟩ <;>
    simpa using congrArg List.length h

/-- C2: the run exits with status 0 iff every step of the pipeline returned
`true`, and with status 1 iff one or more steps returned `false`; the
`failed_steps` names printed at the end are exactly the names of the failed
steps, in pipeline order. -/
theorem main_exit_code_spec (argv : List String) (w : World) :
    ((main argv w).exitCode = 0 ↔ ∀ p ∈ (main argv w).outcomes, p.2 = true) ∧
    ((main argv w).exitCode = 1 ↔ ∃ p ∈ (main argv w).outcomes, p.2 = false) ∧
    (main argv w).failed_steps =
      (((main argv w).outcomes).filter (fun p => !p.2)).map Prod.fst := by
  have hf : (main argv w).failed_steps =
      (((main argv w).outcomes).filter (fun p => !p.2)).map Prod.fst :=
    runSteps_failed (steps (parse_version argv)) w
  have hempty : (main argv w).failed_steps.isEmpty = true ↔
      ∀ p ∈ (main argv w).outcomes, p.2 = true := by
    rw [hf]
    simp [List.isEmpty_iff, List.filter_eq_nil_iff]
  have hexit : (main argv w).exitCode =
      if (main argv w).failed_steps.isEmpty then 0 else 1 := rfl
  refine ⟨?_, ?_, hf⟩
  · rw [hexit]
    by_cases h : (main argv w).failed_steps.isEmpty
    · simp only [if_pos h]
      exact iff_of_true (by norm_num) (hempty.mp h)
    · simp only [if_neg h]
      exact iff_of_false (by norm_num) (fun hc => h (hempty.mpr hc))
  · rw [hexit]
    by_cases h : (main argv w).failed_steps.isEmpty
    · simp only [if_pos h]
      apply iff_of_false (by norm_num)
      rintro ⟨p, hp, hp2⟩
      have hall := hempty.mp h p hp
      rw [hall] at hp2
      exact absurd hp2 (by decide)
    · simp only [if_neg h]
      apply iff_of_true (by norm_num)
      have hnall : ¬ ∀ p ∈ (main argv w).outcomes, p.2 = true :=
        fun hc => h (hempty.mpr hc)
      push_neg at hnall
      obtain ⟨p, hp, hne⟩ := hnall
      exact ⟨p, hp, by simpa using hne⟩

/-- C5: the asset validator succeeds iff both generated files exist, the
declarations file is at least 1000 bytes and the implementation file at least
500 bytes; a 999-byte declarations file fails while a 1000-byte one passes
(implementation file at its threshold), and on success the combined byte total
is reported. -/
theorem validate_generated_assets_spec (pe : String → Bool) (sz : String → Nat) :
    ((validate_generated_assets pe sz).fst = true ↔
      (pe headerPath = true ∧ pe implPath = true ∧
        1000 ≤ sz headerPath ∧ 500 ≤ sz implPath)) ∧
    ((validate_generated_assets pe sz).fst = true →
      (validate_generated_assets pe sz).snd = some (sz headerPath + sz implPath)) ∧
    (validate_generated_assets (fun _ => true)
      (fun p => if p = headerPath then 999 else 500)).fst = false ∧
    (validate_generated_assets (fun _ => true)
      (fun p => if p = headerPath then 1000 else 500)).fst = true := by
  refine ⟨?_, ?_, by decide, by decide⟩
  · unfold validate_generated_assets
    by_cases h1 : pe headerPath <;> by_cases h2 : pe implPath <;>
      simp only [h1, h2, Bool.not_true, Bool.not_false, if_true, if_false] <;>
      [split_ifs with h3 h4; skip; skip; skip] <;> simp_all
  · unfold validate_generated_assets
    by_cases h1 : pe headerPath <;> by_cases h2 : pe implPath <;>
      simp only [h1, h2, Bool.not_true, Bool.not_false, if_true, if_false] <;>
      [split_ifs with h3 h4; skip; skip; skip] <;> simp_all

/-- Witness for C5 at a concrete filesystem where both files exist with 2000
bytes each: the reported total is 4000 bytes. -/
theorem validate_generated_assets_spec_witness :
    (validate_generated_assets (fun _ => true) (fun _ => 2000)).snd = some 4000 := by
  have h := (validate_generated_assets_spec (fun _ => true) (fun _ => 2000)).2.1 (by decide)
  simpa using h

/-- C6: the structural validator succeeds iff every path of its fixed
required-file list exists; when it fails it has reported every missing path
(and only missing paths), not just the first one found. -/
theorem validate_structure_spec (pe : String → Bool) :
    ((validate_structure pe).fst = true ↔ ∀ f ∈ required_files, pe f = true) ∧
    ((validate_structure pe).fst = false ↔ ∃ f ∈ required_files, pe f = false) ∧
    (∀ f ∈ required_files, pe f = false → f ∈ (validate_structure pe).snd) ∧
    (∀ f ∈ (validate_structure pe).snd, f ∈ required_files ∧ pe f = false) := by
  have hmem : ∀ f, f ∈ required_files.filter (fun file => !(pe file)) ↔
      (f ∈ required_files ∧ pe f = false) := by
    intro f
    simp [List.mem_filter]
  by_cases h : (required_files.filter (fun file => !(pe file))).isEmpty
  · have hnil : required_files.filter (fun file => !(pe file)) = [] :=
      List.isEmpty_iff.mp h
    have hall : ∀ f ∈ required_files, pe f = true := by
      intro f hf
      cases hpe : pe f
      · have : f ∈ required_files.filter (fun file => !(pe file)) :=
          (hmem f).mpr ⟨hf, hpe⟩
        rw [hnil] at this
        exact absurd this (List.not_mem_nil f)
      · rfl
    have heq : validate_structure pe = (true, []) := by
      simp [validate_structure, h]
    refine ⟨?_, ?_, ?_, ?_⟩
    · rw [heq]
      exact iff_of_true rfl hall
    · rw [heq]
      refine iff_of_false (by simp) ?_
      rintro ⟨f, hf, hfalse⟩
      rw [hall f hf] at hfalse
      exact absurd hfalse (by decide)
    · intro f hf hfalse
      rw [hall f hf] at hfalse
      exact absurd hfalse (by decide)
    · intro f hf
      rw [heq] at hf
      exact absurd hf (List.not_mem_nil f)
  · have hne : required_files.filter (fun file => !(pe file)) ≠ [] := by
      intro hc
      rw [hc] at h
      exact h rfl
    have heq : validate_structure pe =
        (false, required_files.filter (fun file => !(pe file))) := by
      simp [validate_structure, h]
    obtain ⟨f₀, hf₀⟩ := List.exists_mem_of_ne_nil _ hne
    have hf₀' := (hmem f₀).mp hf₀
    refine ⟨?_, ?_, ?_, ?_⟩
    · rw [heq]
      refine iff_of_false (by simp) ?_
      intro hall
      rw [hall f₀ hf₀'.1] at hf₀'
      exact absurd hf₀'.2 (by decide)
    · rw [heq]
      exact iff_of_true rfl ⟨f₀, hf₀'.1, hf₀'.2⟩
    · intro f hf hfalse
      rw [heq]
      exact (hmem f).mpr ⟨hf, hfalse⟩
    · intro f hf
      rw [heq] at hf
      exact (hmem f).mp hf

/-- Witness for C6 at the filesystem where nothing exists: the manifest path
is among the reported missing files. -/
theorem validate_structure_spec_witness :
    "library.json" ∈ (validate_structure (fun _ => false)).snd :=
  (validate_structure_spec (fun _ => false)).2.2.1 "library.json" (by decide) rfl

/-- C7: the asset build trigger succeeds iff the external command exits with
status zero; on any non-zero exit it returns `false` and the printed failure
reason surfaces the captured (stripped) standard-error text. -/
theorem embed_assets_spec (res : CmdResult) :
    ((embed_assets res).fst = true ↔ res.exitCode = 0) ∧
    (res.exitCode ≠ 0 →
      (embed_assets res).fst = false ∧
      ∃ msg, (embed_assets res).snd = some msg ∧
        ∃ pre post, msg = pre ++ pyStrip res.stderr ++ post) := by
  unfold embed_assets run_command
  by_cases h : res.exitCode = 0
  · simp [h]
  · refine ⟨by simp [h], fun _ => ⟨by simp [h], ?_⟩⟩
    by_cases hs : res.stderr = ""
    · refine ⟨calledProcessErrorText embedAssetsCommand res.exitCode, by simp [h, hs],
        calledProcessErrorText embedAssetsCommand res.exitCode, "", ?_⟩
      rw [hs]
      have hempty : pyStrip "" = "" := rfl
      rw [hempty]
      simp
    · refine ⟨pyStrip res.stderr, by simp [h, hs], "", "", ?_⟩
      simp

/-- Witness for C7 at a concrete failing command result (exit status 1,
stderr "boom"). -/
theorem embed_assets_spec_witness :
    (embed_assets ⟨1, "", "boom"⟩).fst = false ∧
    ∃ msg, (embed_assets ⟨1, "", "boom"⟩).snd = some msg ∧
      ∃ pre post, msg = pre ++ pyStrip "boom" ++ post :=
  (embed_assets_spec ⟨1, "", "boom"⟩).2 (by decide)

/-- Setting a key makes it look up to the new value. -/
theorem setKey_lookup_self (l : List (String × Json)) (k : String) (v : Json) :
    (setKey l k v).lookup k = some v := by
  induction l with
  | nil => simp [setKey, List.lookup]
  | cons hd tl ih =>
    obtain ⟨k₀, v₀⟩ := hd
    by_cases h : k₀ = k
    · simp [setKey, h, List.lookup]
    · have hkk : (k == k₀) = false := by simp [Ne.symm h]
      simp [setKey, h, List.lookup, hkk, ih]

/-- Setting a key leaves every other key's lookup unchanged. -/
theorem setKey_lookup_other (l : List (String × Json)) (k k₁ : String) (v : Json)
    (h : k₁ ≠ k) : (setKey l k v).lookup k₁ = l.lookup k₁ := by
  have hkk : (k₁ == k) = false := by simp [h]
  induction l with
  | nil => simp [setKey, List.lookup, hkk]
  | cons hd tl ih =>
    obtain ⟨k₀, v₀⟩ := hd
    by_cases h0 : k₀ = k
    · subst h0
      simp [setKey, List.lookup, hkk]
    · by_cases h1 : k₁ = k₀
      · subst h1
        simp [setKey, h0, List.lookup]
      · have hkk₀ : (k₁ == k₀) = false := by simp [h1]
        simp [setKey, h0, List.lookup, hkk₀, ih]

/-- C3 counterexample: the claim quantifies over every supplied version
string, but the empty string — which `main` can pass, e.g. from
`--version ""` — is falsy in Python, so `update_version` takes the no-op
branch: it returns `true` yet the written-back document is the unchanged
original, not the original with its `version` key set to the supplied
string. -/
theorem update_version_empty_supplied_counterexample :
    (update_version (some "")
      (some (Json.obj [("version", Json.str "1.0.0"), ("other", Json.str "x")]))).fst
      = true ∧
    (update_version (some "")
      (some (Json.obj [("version", Json.str "1.0.0"), ("other", Json.str "x")]))).snd
      = some (Json.obj [("version", Json.str "1.0.0"), ("other", Json.str "x")]) ∧
    Json.obj [("version", Json.str "1.0.0"), ("other", Json.str "x")]
      ≠ Json.obj [("version", Json.str ""), ("other", Json.str "x")] := by
  refine ⟨rfl, rfl, ?_⟩
  simp

/-- C3 (amended): for every manifest document that is a JSON object, when a
NONEMPTY version string is supplied, `update_version` returns `true` and the
written-back document equals the original with only the `version` key set to
the supplied string — every other key keeps its value; in particular,
manifest `{"version": "1.0.0", "other": "x"}` with supplied version `"1.2.0"`
becomes `{"version": "1.2.0", "other": "x"}`. -/
theorem update_version_nonempty_spec (v : String) (hv : v ≠ "")
    (members : List (String × Json)) :
    (update_version (some v) (some (Json.obj members))).fst = true ∧
    (update_version (some v) (some (Json.obj members))).snd
      = some (Json.obj (setKey members "version" (Json.str v))) ∧
    (setKey members "version" (Json.str v)).lookup "version" = some (Json.str v) ∧
    (∀ k, k ≠ "version" →
      (setKey members "version" (Json.str v)).lookup k = members.lookup k) ∧
    update_version (some "1.2.0")
        (some (Json.obj [("version", Json.str "1.0.0"), ("other", Json.str "x")]))
      = (true, some (Json.obj [("version", Json.str "1.2.0"), ("other", Json.str "x")])) := by
  refine ⟨?_, ?_, setKey_lookup_self members "version" (Json.str v),
    fun k hk => setKey_lookup_other members "version" k (Json.str v) hk, rfl⟩
  · simp [update_version, hv]
  · simp [update_version, hv]

/-- Witness for C3 (amended) at the round-trip example from the
specification. -/
theorem update_version_nonempty_spec_witness :
    (update_version (some "1.2.0")
      (some (Json.obj [("version", Json.str "1.0.0"), ("other", Json.str "x")]))).snd
      = some (Json.obj (setKey [("version", Json.str "1.0.0"), ("other", Json.str "x")]
          "version" (Json.str "1.2.0"))) :=
  (update_version_nonempty_spec "1.2.0" (by decide)
    [("version", Json.str "1.0.0"), ("other", Json.str "x")]).2.1

/-- C4: when no version argument was supplied (`version = None`),
`update_version` returns `true` immediately and the manifest state is
identical after the step — `library.json` is byte-for-byte unmodified, the
no-version branch returning before any read or write. -/
theorem update_version_none_noop (m : Option Json) (w : World) :
    update_version none m = (true, m) ∧
    update_version_action none w = (true, w) :=
  ⟨rfl, rfl⟩

/-- C8: a version is taken from the argument vector exactly when the first
argument after the program name is `--version` and another argument follows,
in which case that following argument is the version; every other argument
form yields no version, and a run on such an argument vector leaves the
manifest unmodified (silently ignored, no rejection, no mutation). -/
theorem parse_version_spec :
    (∀ a₀ v rest, parse_version (a₀ :: "--version" :: v :: rest) = some v) ∧
    (∀ argv v, parse_version argv = some v →
      ∃ a₀ rest, argv = a₀ :: "--version" :: v :: rest) ∧
    (∀ argv w, parse_version argv = none →
      (main argv w).world.manifest = w.manifest) := by
  refine ⟨fun a₀ v rest => by simp [parse_version], ?_, ?_⟩
  · intro argv v hv
    rcases argv with _ | ⟨a₀, _ | ⟨a₁, rest⟩⟩
    · simp [parse_version] at hv
    · simp [parse_version] at hv
    · by_cases h1 : a₁ = "--version"
      · subst h1
        rcases rest with _ | ⟨a₂, rest'⟩
        · simp [parse_version] at hv
        · simp [parse_version] at hv
          exact ⟨a₀, rest', by rw [hv]⟩
      · simp [parse_version, h1] at hv
  · intro argv w h
    rw [main_world_eq, h]
    rfl

/-- Witness for C8: the well-formed flag pair parses to its version, and a run
invoked with an unrecognized argument leaves the manifest unmodified. -/
theorem parse_version_spec_witness :
    parse_version ["tools/prepare_release.py", "--version", "1.2.0"] = some "1.2.0" ∧
    (main ["tools/prepare_release.py", "-v"] trivialWorld).world.manifest =
      trivialWorld.manifest :=
  ⟨parse_version_spec.1 "tools/prepare_release.py" "1.2.0" [],
   parse_version_spec.2.2 ["tools/prepare_release.py", "-v"] trivialWorld (by decide)⟩

/-- C9: the release notes checker returns exactly the existence of
`RELEASE_NOTES.md`; when the file is absent the printed warning includes the
line telling the operator to author the notes manually; and in either case the
step leaves the world untouched — it never creates or writes the file. -/
theorem create_release_notes_spec (pe : String → Bool) (w : World) :
    ((create_release_notes pe).fst = pe "RELEASE_NOTES.md") ∧
    (pe "RELEASE_NOTES.md" = false →
      "Please create release notes manually before running prepare_release.py" ∈
        (create_release_notes pe).snd) ∧
    (create_release_notes_action w).2 = w := by
  refine ⟨?_, ?_, rfl⟩
  · by_cases h : pe "RELEASE_NOTES.md" <;> simp [create_release_notes, h]
  · intro h
    simp [create_release_notes, h, releaseNotesWarning]

/-- Witness for C9 at the filesystem with no notes file: the manual-authoring
warning line is emitted. -/
theorem create_release_notes_spec_witness :
    "Please create release notes manually before running prepare_release.py" ∈
      (create_release_notes (fun _ => false)).snd :=
  (create_release_notes_spec (fun _ => false) trivialWorld).2.1 rfl

/-- C10: the empty string is falsy in Python, so `update_version` takes the
no-op branch for it exactly as for `None`: it returns `true` and leaves the
manifest untouched; invoking the program as `--version ""` parses to the empty
version, succeeds at the "Updating version" step, and does not mutate
`library.json`. -/
theorem update_version_empty_string_noop (m : Option Json) (w : World) :
    update_version (some "") m = (true, m) ∧
    parse_version ["tools/prepare_release.py", "--version", ""] = some "" ∧
    (main ["tools/prepare_release.py", "--version", ""] w).world.manifest
      = w.manifest ∧
    ((main ["tools/prepare_release.py", "--version", ""] w).outcomes).get? 3
      = some ("Updating version", true) := by
  exact ⟨rfl, rfl, rfl, rfl⟩

end PrepareRelease
